import Mathlib

/-!
Verification of the host statistics gathering script (stats.py).

The script reads kernel counter sources, computes three metrics
(CPU utilization, used memory, process count), formats them into a single
timestamped line, prints it and optionally appends it to a file.

Numeric values parsed by the script with float(...) are modelled as
rationals; fallible operations (index errors, division by zero on floats,
missing dictionary keys) are modelled with Option, where none stands for
the raised exception. File contents are modelled as Option String
(none means the path does not exist yet).
-/

/-- Test whether the string s begins with the string p, character by
character; models the Python str.startswith test on a line. -/
def strBeginsWith (s p : String) : Bool :=
  s.data.take p.data.length == p.data

/-- Drop the final character of a string; models the Python slice [:-1]
applied to a label token to remove its trailing colon. -/
def strDropLast (s : String) : String :=
  ⟨s.data.dropLast⟩

/-- Round a rational to the nearest integer, ties going to the even
neighbour; this is the semantics of the Python builtin round applied at
line 64 of stats.py. -/
def roundHalfEven (q : ℚ) : ℤ :=
  if q - ⌊q⌋ < 1/2 then ⌊q⌋
  else if 1/2 < q - ⌊q⌋ then ⌊q⌋ + 1
  else if ⌊q⌋ % 2 = 0 then ⌊q⌋ else ⌊q⌋ + 1

/-- Render a rational with exactly one digit after the decimal point,
rounding half to even; models the Python format specification {0:.1f}
used at line 51 of stats.py. -/
def formatOneDecimal (x : ℚ) : String :=
  (if x < 0 then "-" else "")
    ++ toString ((roundHalfEven (x * 10)).natAbs / 10)
    ++ "." ++ toString ((roundHalfEven (x * 10)).natAbs % 10)

/-- One reading of the first line of the CPU counter source: the leading
label token (the literal cpu on Linux) together with the numeric columns
that follow it, already parsed to rationals. -/
def StatLine : Type := String × List ℚ

/-- The numeric fields of a counter line: the line is split into tokens
and the leading label token is dropped; models the expression
[float(col) for col in file.readline().strip().split()[1:]] at line 42
of stats.py. -/
def fieldsOfStatLine (line : StatLine) : List ℚ :=
  line.2

/-- One iteration of the loop body at lines 42 to 45 of stats.py. The
state is the tuple (last_idle, last_total, idle_delta, total_delta); the
iteration reads idle = fields[3] and total = sum(fields), computes the
deltas against the previous state and stores idle and total as the new
last values. -/
def cpuLoopBody (st : ℚ × ℚ × ℚ × ℚ) (fields : List ℚ) : ℚ × ℚ × ℚ × ℚ :=
  (fields.getD 3 0, fields.sum,
   fields.getD 3 0 - st.1, fields.sum - st.2.1)

/-- The numeric CPU utilization computed by get_cpu_usage (the value of
the variable cpu_usage at line 49 of stats.py) from the two successive
readings of the counter line. The loop runs the body twice starting from
last_idle = last_total = 0; the delta components of the initial state are
placeholders that are overwritten before being read. Returns none when a
reading has fewer than four fields (IndexError at fields[3]) or when the
final total_delta is zero (ZeroDivisionError at line 49). -/
def cpu_usage_value (l1 l2 : StatLine) : Option ℚ :=
  if 3 < (fieldsOfStatLine l1).length ∧ 3 < (fieldsOfStatLine l2).length then
    let st := cpuLoopBody (cpuLoopBody (0, 0, 0, 0) (fieldsOfStatLine l1))
      (fieldsOfStatLine l2)
    if st.2.2.2 = 0 then none
    else some (100 * (1 - st.2.2.1 / st.2.2.2))
  else none

/-- The string returned by get_cpu_usage at line 51 of stats.py: the
utilization formatted to one decimal place with a percent suffix. -/
def get_cpu_usage (l1 l2 : StatLine) : Option String :=
  (cpu_usage_value l1 l2).map (fun u => formatOneDecimal u ++ "%")

/-- The direct two-read utilization formula stated by the specification:
idle_delta = R2.idle - R1.idle, total_delta = sum of the fields of R2
minus sum of the fields of R1, utilization = 100 * (1 - idle_delta
divided by total_delta), where the idle field is the field of index 3
after stripping the leading label token. Written from the words of the
specification, to be compared with cpu_usage_value. -/
def cpu_utilization_model (l1 l2 : StatLine) : ℚ :=
  100 * (1 - ((fieldsOfStatLine l2).getD 3 0 - (fieldsOfStatLine l1).getD 3 0)
    / ((fieldsOfStatLine l2).sum - (fieldsOfStatLine l1).sum))

/-- The five label heads selected at line 60 of stats.py. -/
def memKeyLabels : List String :=
  ["MemTotal", "MemFree", "Buffers", "Cached", "Slab"]

/-- Whether a memory counter line is selected by the startswith test at
line 60 of stats.py; the argument is the first whitespace token of the
line, and the test against the line and against its first token agree
for these labels. -/
def memLineSelected (tok : String) : Bool :=
  memKeyLabels.any (fun p => strBeginsWith tok p)

/-- Lookup of a key in the dictionary built by the loop at lines 59 to 62
of stats.py. A meminfo source is a list of lines, each modelled as its
first token (the label with trailing colon) paired with its parsed
numeric value; every selected line stores its value under the first
token minus its final character, later lines overwriting earlier ones,
which the fold realises as last write wins. Returns none when the key
was never stored, modelling the KeyError at lines 64 and 65. -/
def memLookup (lines : List (String × ℚ)) (k : String) : Option ℚ :=
  lines.foldl
    (fun acc line =>
      if memLineSelected line.1 && (strDropLast line.1 == k) then some line.2
      else acc)
    none

/-- The string returned by get_memory_usage at lines 54 to 67 of
stats.py: used kilobytes MemTotal - MemFree - (Buffers + Cached + Slab),
divided by 1024 and rounded by the Python builtin round, rendered with
the MB suffix. Returns none when any of the five counters is absent
(KeyError). -/
def get_memory_usage (lines : List (String × ℚ)) : Option String :=
  match memLookup lines "MemTotal", memLookup lines "MemFree",
      memLookup lines "Buffers", memLookup lines "Cached",
      memLookup lines "Slab" with
  | some t, some fr, some b, some c, some s =>
      some (toString (roundHalfEven ((t - fr - (b + c + s)) / 1024)) ++ "MB")
  | _, _, _, _, _ => none

/-- The Python str.isdigit test used at line 72 of stats.py, restricted
to the character range the process registry can produce: true exactly
when the string is nonempty and every character is a decimal digit. -/
def pyIsDigit (s : String) : Bool :=
  !(s.data == []) && s.data.all Char.isDigit

/-- The count returned by get_processes_quantity at lines 70 to 72 of
stats.py: the number of entries of the directory listing whose name
passes the isdigit test. -/
def get_processes_quantity (entries : List String) : Nat :=
  (entries.filter pyIsDigit).length

/-- The predicate of the specification for a process identifier entry:
the name is nonempty and consists entirely of decimal digit characters,
stated directly over the character codes of the digits zero to nine.
Written from the words of the specification, to be compared with the
isdigit test of the code. -/
def isDecimalDigitEntry (s : String) : Bool :=
  !(s.data == []) && s.data.all (fun c => '0' ≤ c && c ≤ '9')

/-- The file contents produced by dump_stats at lines 75 to 80 of
stats.py. The first argument is the contents of the target path before
the call, none when the path does not exist. When the path exists the
file is opened in append mode and keeps its previous contents; otherwise
it is opened in write mode and created. In both cases the message plus a
newline is written at the end. -/
def dump_stats (existing : Option String) (stats_msg : String) : String :=
  match existing with
  | some contents => contents ++ (stats_msg ++ "\n")
  | none => stats_msg ++ "\n"

/-- The three metric selection flags parsed from the command line. -/
structure Args where
  is_cpu : Bool
  is_mem : Bool
  is_proc : Bool

/-- The defaulting step at lines 95 and 96 of stats.py: when no metric
flag is given all three flags are turned on. -/
def applyDefaultMetrics (a : Args) : Args :=
  if a.is_cpu || a.is_mem || a.is_proc then a else ⟨true, true, true⟩

/-- The ordered mapping built at lines 98 to 111 of stats.py: the key
value pairs inserted into the OrderedDict, in insertion order, given the
already computed sampler outputs. The CPU block runs first, then the
memory block, then the process block, so insertion order is fixed. -/
def collectStats (a : Args) (cpu mem : String) (proc : Nat) :
    List (String × String) :=
  (if a.is_cpu then [("cpu_usage", cpu)] else [])
    ++ (if a.is_mem then [("mem_usage", mem)] else [])
    ++ (if a.is_proc then [("proc_quantity", toString proc)] else [])

/-- The join at line 115 of stats.py: each pair rendered as key colon
value, the rendered pairs joined with single spaces. -/
def joinPairs : List (String × String) → String
  | [] => ""
  | [kv] => kv.1 ++ ":" ++ kv.2
  | kv :: rest => kv.1 ++ ":" ++ kv.2 ++ " " ++ joinPairs rest

/-- The report line built at lines 113 to 115 of stats.py: the timestamp,
one space, then the joined key value pairs. -/
def stats_msg_line (timestamp : String) (stats : List (String × String)) :
    String :=
  timestamp ++ " " ++ joinPairs stats

/-- Whether a report key is requested by the given flags; used to state
the fixed field order of the report line. -/
def metricRequested (a : Args) (key : String) : Bool :=
  (key == "cpu_usage" && a.is_cpu) || (key == "mem_usage" && a.is_mem)
    || (key == "proc_quantity" && a.is_proc)

/-- The observable side effects of one call, in program order: reads of
the counter sources, suspensions of the calling thread, and file
writes. -/
inductive SysEvent where
  | readCpuLine (line : StatLine) : SysEvent
  | sleepFor (duration : ℚ) : SysEvent
  | readMemLines (lines : List (String × ℚ)) : SysEvent
  | readProcEntries (entries : List String) : SysEvent
  | appendLine (line : String) : SysEvent

/-- The side effect trace of get_cpu_usage, from lines 40 to 47 of
stats.py: the loop body reads the first line of the counter source and
then sleeps for 0.5 seconds, and the body runs twice, so the trace is
read, sleep, read, sleep. -/
def get_cpu_usage_events (l1 l2 : StatLine) : List SysEvent :=
  [SysEvent.readCpuLine l1, SysEvent.sleepFor (1/2),
   SysEvent.readCpuLine l2, SysEvent.sleepFor (1/2)]

/-- The side effect trace of get_memory_usage: one read of the memory
counter source, no suspension. -/
def get_memory_usage_events (lines : List (String × ℚ)) : List SysEvent :=
  [SysEvent.readMemLines lines]

/-- The side effect trace of get_processes_quantity: one directory
enumeration, no suspension. -/
def get_processes_quantity_events (entries : List String) : List SysEvent :=
  [SysEvent.readProcEntries entries]

/-- The side effect trace of dump_stats: one append of the report line,
no suspension. -/
def dump_stats_events (stats_msg : String) : List SysEvent :=
  [SysEvent.appendLine stats_msg]

/-- Recognise a suspension event. -/
def isSleepEvent : SysEvent → Bool
  | SysEvent.sleepFor _ => true
  | _ => false

theorem sum_le_sum_of_getD_le :
    ∀ (a b : List ℚ), a.length = b.length →
      (∀ i, i < a.length → a.getD i 0 ≤ b.getD i 0) → a.sum ≤ b.sum := by
  intro a
  induction a with
  | nil =>
    intro b hlen _
    cases b with
    | nil => simp
    | cons y ys => simp at hlen
  | cons x xs ih =>
    intro b hlen hle
    cases b with
    | nil => simp at hlen
    | cons y ys =>
      simp only [List.length_cons, Nat.succ.injEq] at hlen
      have hx : x ≤ y := by
        have h := hle 0 (by simp)
        simpa using h
      have ht : xs.sum ≤ ys.sum := by
        refine ih ys hlen (fun i hi => ?_)
        have h := hle (i + 1) (by simpa using Nat.succ_lt_succ hi)
        simpa using h
      simp only [List.sum_cons]
      linarith

theorem getD_sub_le_sum_sub :
    ∀ (a b : List ℚ) (j : ℕ), a.length = b.length →
      (∀ i, i < a.length → a.getD i 0 ≤ b.getD i 0) →
      b.getD j 0 - a.getD j 0 ≤ b.sum - a.sum := by
  intro a
  induction a with
  | nil =>
    intro b j hlen _
    cases b with
    | nil => simp
    | cons y ys => simp at hlen
  | cons x xs ih =>
    intro b j hlen hle
    cases b with
    | nil => simp at hlen
    | cons y ys =>
      simp only [List.length_cons, Nat.succ.injEq] at hlen
      have hx : x ≤ y := by
        have h := hle 0 (by simp)
        simpa using h
      have htail : ∀ i, i < xs.length → xs.getD i 0 ≤ ys.getD i 0 := by
        intro i hi
        have h := hle (i + 1) (by simpa using Nat.succ_lt_succ hi)
        simpa using h
      cases j with
      | zero =>
        have ht : xs.sum ≤ ys.sum := sum_le_sum_of_getD_le xs ys hlen htail
        simp only [List.getD_cons_zero, List.sum_cons]
        linarith
      | succ j =>
        have h := ih ys j hlen htail
        simp only [List.getD_cons_succ, List.sum_cons]
        linarith

theorem cpu_usage_value_eq (l1 l2 : StatLine)
    (h1 : 3 < (fieldsOfStatLine l1).length)
    (h2 : 3 < (fieldsOfStatLine l2).length)
    (hdT : (fieldsOfStatLine l2).sum - (fieldsOfStatLine l1).sum ≠ 0) :
    cpu_usage_value l1 l2 = some (cpu_utilization_model l1 l2) := by
  have hred : cpu_usage_value l1 l2 =
      if 3 < (fieldsOfStatLine l1).length ∧ 3 < (fieldsOfStatLine l2).length
      then
        if (fieldsOfStatLine l2).sum - (fieldsOfStatLine l1).sum = 0 then none
        else some (100 * (1 -
          ((fieldsOfStatLine l2).getD 3 0 - (fieldsOfStatLine l1).getD 3 0)
          / ((fieldsOfStatLine l2).sum - (fieldsOfStatLine l1).sum)))
      else none := rfl
  rw [hred, if_pos ⟨h1, h2⟩, if_neg hdT]
  rfl

/-- Claim C1, counterexample: over arbitrary numeric readings the claimed
bounds fail. The two concrete readings below have total_delta = 5 greater
than zero, yet the computed utilization is 200, outside the interval from
0 to 100, because the idle counter decreased between the readings. -/
theorem cpu_usage_not_bounded_for_arbitrary_readings :
    0 < (fieldsOfStatLine ("cpu", [10, 0, 0, 0])).sum
      - (fieldsOfStatLine ("cpu", [0, 0, 0, 5])).sum
    ∧ cpu_usage_value ("cpu", [0, 0, 0, 5]) ("cpu", [10, 0, 0, 0]) = some 200
    ∧ ¬ (0 ≤ (200 : ℚ) ∧ (200 : ℚ) ≤ 100) := by
  refine ⟨by norm_num [fieldsOfStatLine], ?_, by norm_num⟩
  norm_num [cpu_usage_value, cpuLoopBody, fieldsOfStatLine]

/-- Claim C1, amended: for readings with at least four fields, equally
many fields in both readings, and every field non decreasing from the
first reading to the second (the monotone counter invariant of the data
model), total_delta greater than zero implies that the utilization
computed by get_cpu_usage lies between 0 and 100 inclusive. -/
theorem cpu_usage_bounds_of_monotone_readings (l1 l2 : StatLine)
    (h1 : 3 < (fieldsOfStatLine l1).length)
    (hlen : (fieldsOfStatLine l1).length = (fieldsOfStatLine l2).length)
    (hmono : ∀ i, i < (fieldsOfStatLine l1).length →
      (fieldsOfStatLine l1).getD i 0 ≤ (fieldsOfStatLine l2).getD i 0)
    (hpos : 0 < (fieldsOfStatLine l2).sum - (fieldsOfStatLine l1).sum) :
    ∃ u, cpu_usage_value l1 l2 = some u ∧ 0 ≤ u ∧ u ≤ 100 := by
  have h2 : 3 < (fieldsOfStatLine l2).length := hlen ▸ h1
  have hdT : (fieldsOfStatLine l2).sum - (fieldsOfStatLine l1).sum ≠ 0 :=
    ne_of_gt hpos
  have hI0 : 0 ≤ (fieldsOfStatLine l2).getD 3 0
      - (fieldsOfStatLine l1).getD 3 0 :=
    sub_nonneg.mpr (hmono 3 h1)
  have hkey : (fieldsOfStatLine l2).getD 3 0 - (fieldsOfStatLine l1).getD 3 0
      ≤ (fieldsOfStatLine l2).sum - (fieldsOfStatLine l1).sum :=
    getD_sub_le_sum_sub (fieldsOfStatLine l1) (fieldsOfStatLine l2) 3 hlen hmono
  have hr1 : ((fieldsOfStatLine l2).getD 3 0 - (fieldsOfStatLine l1).getD 3 0)
      / ((fieldsOfStatLine l2).sum - (fieldsOfStatLine l1).sum) ≤ 1 :=
    (div_le_one hpos).mpr hkey
  have hr0 : 0 ≤ ((fieldsOfStatLine l2).getD 3 0
      - (fieldsOfStatLine l1).getD 3 0)
      / ((fieldsOfStatLine l2).sum - (fieldsOfStatLine l1).sum) :=
    div_nonneg hI0 hpos.le
  refine ⟨cpu_utilization_model l1 l2, cpu_usage_value_eq l1 l2 h1 h2 hdT,
    ?_, ?_⟩
  · unfold cpu_utilization_model
    nlinarith
  · unfold cpu_utilization_model
    nlinarith

/-- Claim C1, witness: the amended bounds at two concrete monotone
readings. -/
theorem cpu_usage_bounds_witness :
    ∃ u, cpu_usage_value ("cpu", [1, 1, 1, 1]) ("cpu", [2, 2, 2, 3])
      = some u ∧ 0 ≤ u ∧ u ≤ 100 :=
  cpu_usage_bounds_of_monotone_readings ("cpu", [1, 1, 1, 1])
    ("cpu", [2, 2, 2, 3]) (by decide) (by decide) (by decide)
    (by norm_num [fieldsOfStatLine])

/-- Claim C2: the two iteration loop of get_cpu_usage computes the same
result as the direct two read algorithm of the specification. For a first
reading R1 and a second reading R2, each with at least four fields and
with a nonzero total delta, the returned string is the direct formula
100 * (1 - idle_delta / total_delta) formatted to one decimal place with
a percent suffix, where idle is the field of index 3 after stripping the
leading label token and total is the sum of the fields. -/
theorem get_cpu_usage_refines_two_read_model (l1 l2 : StatLine)
    (h1 : 3 < (fieldsOfStatLine l1).length)
    (h2 : 3 < (fieldsOfStatLine l2).length)
    (hdT : (fieldsOfStatLine l2).sum - (fieldsOfStatLine l1).sum ≠ 0) :
    get_cpu_usage l1 l2
      = some (formatOneDecimal (cpu_utilization_model l1 l2) ++ "%") := by
  unfold get_cpu_usage
  rw [cpu_usage_value_eq l1 l2 h1 h2 hdT]
  rfl

/-- Claim C2, witness: the refinement at two concrete readings, where the
direct formula gives 100 * (1 - 2 / 5) = 60 and the returned string is
60.0 with the percent suffix. -/
theorem get_cpu_usage_refines_witness :
    get_cpu_usage ("cpu", [1, 1, 1, 1]) ("cpu", [2, 2, 2, 3])
        = some (formatOneDecimal
          (cpu_utilization_model ("cpu", [1, 1, 1, 1]) ("cpu", [2, 2, 2, 3]))
          ++ "%")
      ∧ get_cpu_usage ("cpu", [1, 1, 1, 1]) ("cpu", [2, 2, 2, 3])
        = some "60.0%" := by
  have h := get_cpu_usage_refines_two_read_model ("cpu", [1, 1, 1, 1])
    ("cpu", [2, 2, 2, 3]) (by decide) (by decide)
    (by norm_num [fieldsOfStatLine])
  refine ⟨h, h.trans ?_⟩
  have hm : cpu_utilization_model ("cpu", [1, 1, 1, 1]) ("cpu", [2, 2, 2, 3])
      = 60 := by
    norm_num [cpu_utilization_model, fieldsOfStatLine]
  rw [hm]
  have hf : formatOneDecimal 60 = "60.0" := by
    have h600 : roundHalfEven ((60 : ℚ) * 10) = 600 := by
      norm_num [roundHalfEven]
    unfold formatOneDecimal
    rw [h600]
    decide
  rw [hf]
  rfl

/-- Claim C4: when the total delta of the two readings is zero, the
division at line 49 of stats.py is unguarded and get_cpu_usage fails with
a division by zero arithmetic error (modelled as none) instead of
returning any default value. -/
theorem get_cpu_usage_zero_delta_error (l1 l2 : StatLine)
    (h1 : 3 < (fieldsOfStatLine l1).length)
    (h2 : 3 < (fieldsOfStatLine l2).length)
    (hdT : (fieldsOfStatLine l2).sum - (fieldsOfStatLine l1).sum = 0) :
    get_cpu_usage l1 l2 = none := by
  have hred : cpu_usage_value l1 l2 =
      if 3 < (fieldsOfStatLine l1).length ∧ 3 < (fieldsOfStatLine l2).length
      then
        if (fieldsOfStatLine l2).sum - (fieldsOfStatLine l1).sum = 0 then none
        else some (100 * (1 -
          ((fieldsOfStatLine l2).getD 3 0 - (fieldsOfStatLine l1).getD 3 0)
          / ((fieldsOfStatLine l2).sum - (fieldsOfStatLine l1).sum)))
      else none := rfl
  unfold get_cpu_usage
  rw [hred, if_pos ⟨h1, h2⟩, if_pos hdT]
  rfl

/-- Claim C4, witness: two identical concrete readings give a zero total
delta and the call fails. -/
theorem get_cpu_usage_zero_delta_witness :
    get_cpu_usage ("cpu", [1, 2, 3, 4]) ("cpu", [1, 2, 3, 4]) = none :=
  get_cpu_usage_zero_delta_error ("cpu", [1, 2, 3, 4]) ("cpu", [1, 2, 3, 4])
    (by decide) (by decide) (by norm_num [fieldsOfStatLine])

/-- Claim C3: for every memory counter source containing all five
counters, get_memory_usage returns the rounded value of
(MemTotal - MemFree - (Buffers + Cached + Slab)) / 1024 rendered with the
MB suffix, where the rounding is the Python builtin round. -/
theorem get_memory_usage_formula (lines : List (String × ℚ))
    (t fr b c s : ℚ)
    (ht : memLookup lines "MemTotal" = some t)
    (hf : memLookup lines "MemFree" = some fr)
    (hb : memLookup lines "Buffers" = some b)
    (hc : memLookup lines "Cached" = some c)
    (hs : memLookup lines "Slab" = some s) :
    get_memory_usage lines
      = some (toString (roundHalfEven ((t - fr - (b + c + s)) / 1024))
        ++ "MB") := by
  unfold get_memory_usage
  rw [ht, hf, hb, hc, hs]

/-- Claim C3, witness: the counter set of the specification, MemTotal
8000000, MemFree 2000000, Buffers 100000, Cached 3000000, Slab 200000,
yields round(2700000 / 1024) = 2637 and the returned string 2637MB. -/
theorem get_memory_usage_formula_witness :
    get_memory_usage [("MemTotal:", 8000000), ("MemFree:", 2000000),
      ("Buffers:", 100000), ("Cached:", 3000000), ("Slab:", 200000)]
      = some "2637MB" := by
  have h := get_memory_usage_formula [("MemTotal:", 8000000),
    ("MemFree:", 2000000), ("Buffers:", 100000), ("Cached:", 3000000),
    ("Slab:", 200000)] 8000000 2000000 100000 3000000 200000
    (by decide) (by decide) (by decide) (by decide) (by decide)
  rw [h]
  have hr : roundHalfEven (((8000000 : ℚ) - 2000000
      - (100000 + 3000000 + 200000)) / 1024) = 2637 := by
    norm_num [roundHalfEven]
  rw [hr]
  decide

/-- Claim C5: when any one of the five required counters is absent from
the memory counter source, get_memory_usage fails with a missing key
error (modelled as none) and never computes a result from a substituted
default. -/
theorem get_memory_usage_missing_counter_error (lines : List (String × ℚ))
    (h : memLookup lines "MemTotal" = none
      ∨ memLookup lines "MemFree" = none
      ∨ memLookup lines "Buffers" = none
      ∨ memLookup lines "Cached" = none
      ∨ memLookup lines "Slab" = none) :
    get_memory_usage lines = none := by
  cases hT : memLookup lines "MemTotal" <;>
    cases hF : memLookup lines "MemFree" <;>
      cases hB : memLookup lines "Buffers" <;>
        cases hC : memLookup lines "Cached" <;>
          cases hS : memLookup lines "Slab" <;>
            simp_all [get_memory_usage]

/-- Claim C5, witness: a concrete counter source missing the Slab line
fails. -/
theorem get_memory_usage_missing_counter_witness :
    get_memory_usage [("MemTotal:", 8000000), ("MemFree:", 2000000),
      ("Buffers:", 100000), ("Cached:", 3000000)] = none :=
  get_memory_usage_missing_counter_error [("MemTotal:", 8000000),
    ("MemFree:", 2000000), ("Buffers:", 100000), ("Cached:", 3000000)]
    (Or.inr (Or.inr (Or.inr (Or.inr (by decide)))))

theorem roundHalfEven_int_add_half (k : ℤ) :
    roundHalfEven ((k : ℚ) + 1/2) = if k % 2 = 0 then k else k + 1 := by
  have hfl : ⌊(k : ℚ) + 1/2⌋ = k := by
    rw [add_comm, Int.floor_add_int]
    norm_num
  unfold roundHalfEven
  rw [hfl]
  have hr : (k : ℚ) + 1/2 - (k : ℚ) = 1/2 := by ring
  rw [hr]
  simp [lt_irrefl]

/-- Claim C10: the kilobyte to megabyte conversion in get_memory_usage
rounds half values to the nearest even integer. Whenever the used
kilobyte count MemTotal - MemFree - (Buffers + Cached + Slab) is an odd
multiple of 512, written (2k + 1) * 512, the quotient by 1024 is k plus
one half and the reported megabyte count is the even neighbour: k when k
is even, k + 1 when k is odd. -/
theorem memory_rounding_half_even (lines : List (String × ℚ))
    (t fr b c s : ℚ) (k : ℤ)
    (ht : memLookup lines "MemTotal" = some t)
    (hf : memLookup lines "MemFree" = some fr)
    (hb : memLookup lines "Buffers" = some b)
    (hc : memLookup lines "Cached" = some c)
    (hs : memLookup lines "Slab" = some s)
    (hodd : t - fr - (b + c + s) = (2 * (k : ℚ) + 1) * 512) :
    get_memory_usage lines
      = some (toString (if k % 2 = 0 then k else k + 1) ++ "MB") := by
  unfold get_memory_usage
  rw [ht, hf, hb, hc, hs]
  have h2 : (t - fr - (b + c + s)) / 1024 = (k : ℚ) + 1/2 := by
    rw [hodd]
    ring_nf
  show some (toString (roundHalfEven ((t - fr - (b + c + s)) / 1024)) ++ "MB")
    = some (toString (if k % 2 = 0 then k else k + 1) ++ "MB")
  rw [h2, roundHalfEven_int_add_half]

/-- Claim C10, witness: a concrete counter source with used kilobytes
2560 = (2 * 2 + 1) * 512, whose quotient 2.5 rounds down to the even
neighbour 2, giving the string 2MB rather than the 3MB of uniform round
half up. -/
theorem memory_rounding_half_even_witness :
    get_memory_usage [("MemTotal:", 4608), ("MemFree:", 1024),
      ("Buffers:", 512), ("Cached:", 256), ("Slab:", 256)]
      = some "2MB" := by
  have h := memory_rounding_half_even [("MemTotal:", 4608),
    ("MemFree:", 1024), ("Buffers:", 512), ("Cached:", 256),
    ("Slab:", 256)] 4608 1024 512 256 256 2
    (by decide) (by decide) (by decide) (by decide) (by decide)
    (by norm_num)
  rw [h]
  decide

theorem char_isDigit_eq_range (c : Char) :
    c.isDigit = ('0' ≤ c && c ≤ '9') := by
  simp [Char.isDigit, Char.le_def]

theorem pyIsDigit_eq_decimal : pyIsDigit = isDecimalDigitEntry := by
  funext s
  unfold pyIsDigit isDecimalDigitEntry
  have hfun : Char.isDigit = (fun c => '0' ≤ c && c ≤ '9') :=
    funext char_isDigit_eq_range
  rw [hfun]

/-- Claim C6: for every directory listing, get_processes_quantity returns
the number of entries whose name is nonempty and consists entirely of
decimal digit characters, all other entries excluded; in particular the
listing 1, 2, self, 42, cmdline gives 3. -/
theorem get_processes_quantity_counts_digit_entries :
    (∀ entries : List String,
      get_processes_quantity entries
        = (entries.filter isDecimalDigitEntry).length)
    ∧ get_processes_quantity ["1", "2", "self", "42", "cmdline"] = 3 := by
  constructor
  · intro entries
    unfold get_processes_quantity
    rw [pyIsDigit_eq_decimal]
  · decide

/-- Claim C7: the report line is the timestamp, one space, then exactly
the key value pairs of the requested metrics, space separated, in the
fixed order cpu_usage, mem_usage, proc_quantity. When no metric flag is
given, the defaulting step turns all three on and all three fields appear
in that order; when only memory is requested the report contains exactly
the one field mem_usage. -/
theorem stats_report_line_order :
    (∀ (a : Args) (ts cpu mem : String) (proc : Nat),
      stats_msg_line ts (collectStats (applyDefaultMetrics a) cpu mem proc)
        = ts ++ " " ++ joinPairs
          ([("cpu_usage", cpu), ("mem_usage", mem),
            ("proc_quantity", toString proc)].filter
            (fun kv => metricRequested (applyDefaultMetrics a) kv.1)))
    ∧ (∀ (cpu mem : String) (proc : Nat),
      collectStats (applyDefaultMetrics ⟨false, false, false⟩) cpu mem proc
        = [("cpu_usage", cpu), ("mem_usage", mem),
           ("proc_quantity", toString proc)])
    ∧ (∀ (cpu mem : String) (proc : Nat),
      collectStats (applyDefaultMetrics ⟨false, true, false⟩) cpu mem proc
        = [("mem_usage", mem)]) := by
  refine ⟨?_, ?_, ?_⟩
  · intro a ts cpu mem proc
    obtain ⟨bc, bm, bp⟩ := a
    cases bc <;> cases bm <;> cases bp <;> rfl
  · intro cpu mem proc
    rfl
  · intro cpu mem proc
    rfl

/-- Claim C8: appending with dump_stats creates the file when absent,
preserves the previous contents unchanged when the file exists, writes
the new line after them, and two successive invocations on the same path
leave the two report lines each terminated by a newline. -/
theorem dump_stats_append_behavior :
    (∀ msg : String, dump_stats none msg = msg ++ "\n")
    ∧ (∀ contents msg : String,
      dump_stats (some contents) msg = contents ++ (msg ++ "\n"))
    ∧ (∀ m1 m2 : String,
      dump_stats (some (dump_stats none m1)) m2
        = (m1 ++ "\n") ++ (m2 ++ "\n")) := by
  refine ⟨fun msg => rfl, fun contents msg => rfl, fun m1 m2 => rfl⟩

/-- Claim C9, counterexample: the side effect trace of get_cpu_usage at
two concrete readings contains two suspension events, not exactly one,
and its final event, after the second counter reading, is a
suspension. -/
theorem cpu_sleep_count_counterexample :
    (get_cpu_usage_events ("cpu", [0, 0, 0, 0])
      ("cpu", [1, 1, 1, 1])).countP isSleepEvent = 2
    ∧ ¬ ((get_cpu_usage_events ("cpu", [0, 0, 0, 0])
      ("cpu", [1, 1, 1, 1])).countP isSleepEvent = 1)
    ∧ isSleepEvent ((get_cpu_usage_events ("cpu", [0, 0, 0, 0])
      ("cpu", [1, 1, 1, 1])).getD 3 (SysEvent.readCpuLine ("", [])))
      = true := by
  refine ⟨rfl, by decide, rfl⟩

/-- Claim C9, amended: in every invocation, get_cpu_usage suspends the
caller twice for 0.5 time units each, once between the first and the
second counter reading and once more after the second reading, and no
other operation in the system performs a wait. -/
theorem cpu_sleep_twice_trace :
    ∀ (l1 l2 : StatLine) (memLines : List (String × ℚ))
      (entries : List String) (msg : String),
      ((get_cpu_usage_events l1 l2).filter isSleepEvent
        = [SysEvent.sleepFor (1/2), SysEvent.sleepFor (1/2)])
      ∧ (get_cpu_usage_events l1 l2).getD 0 (SysEvent.readCpuLine ("", []))
          = SysEvent.readCpuLine l1
      ∧ (get_cpu_usage_events l1 l2).getD 1 (SysEvent.readCpuLine ("", []))
          = SysEvent.sleepFor (1/2)
      ∧ (get_cpu_usage_events l1 l2).getD 2 (SysEvent.readCpuLine ("", []))
          = SysEvent.readCpuLine l2
      ∧ (get_cpu_usage_events l1 l2).getD 3 (SysEvent.readCpuLine ("", []))
          = SysEvent.sleepFor (1/2)
      ∧ (get_cpu_usage_events l1 l2).length = 4
      ∧ (get_memory_usage_events memLines).countP isSleepEvent = 0
      ∧ (get_processes_quantity_events entries).countP isSleepEvent = 0
      ∧ (dump_stats_events msg).countP isSleepEvent = 0 := by
  intro l1 l2 memLines entries msg
  exact ⟨rfl, rfl, rfl, rfl, rfl, rfl, rfl, rfl, rfl⟩
